import Mathlib

/-!
Shallow embedding of the LuckyDrop-Bot pot-lifecycle core
(src/db/db_access.py, src/utils/pot.py, src/main.py).

Conventions of the embedding:
* MongoDB documents become Lean structures; the unique-indexed `users`
  collection becomes a `List User` looked up by `telegram_id` (first
  match, mirroring `find_one`).
* Monetary floats become integers counted in hundredths of a rupee
  (paise), so ₹50.00 is 5000; Python `round(x, 2)` becomes exact
  round-half-even to an integer number of hundredths.  For the prize
  values arising here (integer bases 500/200/100 scaled by n/30 with
  n < 30) the rational value is never within 1/600 of a two-decimal
  tie, so the float computation in the source and the exact one
  agree.
* The status strings "open"/"closed"/"revealed", the rank strings
  "1st"/"2nd"/"3rd" and the payout status strings "PENDING"/"PAID"/
  "FAILED" become enumerations.
* Side effects that matter to the pot lifecycle (balance increments,
  payout-record inserts, status writes) are returned explicitly by the
  embedded operations; Telegram message sending and logging are
  fire-and-forget effects outside the core and are not modelled.
-/

namespace LuckyDrop

/-- Pot status; the source stores the strings "open", "closed",
"revealed" (`opened` stands for "open", which is a Lean keyword). -/
inductive Status
  | opened
  | closed
  | revealed
  deriving DecidableEq

/-- One entry of a pot's `participants` array:
`{"telegram_id": ..., "ticket_code": ...}`. -/
structure Participant where
  telegram_id : ℤ
  ticket_code : String
  deriving DecidableEq

/-- A `users` document.  Only the fields the pot lifecycle reads or
writes are modelled (`create_user` initialises several further fields —
referral data, recharge history — that the core never touches). -/
structure User where
  telegram_id : ℤ
  real_balance : ℤ
  bonus_balance : ℤ
  upi_id : Option String
  deriving DecidableEq

/-- Winner rank; the source uses the strings "1st", "2nd", "3rd". -/
inductive Rank
  | first
  | second
  | third
  deriving DecidableEq

/-- The source's `rank_order_map = {"3rd": 3, "2nd": 2, "1st": 1}`. -/
def rank_order_map : Rank → ℕ
  | .third => 3
  | .second => 2
  | .first => 1

/-- An entry of `winners_data_for_reveal`
(`{"rank": ..., "prize": ..., "winner_obj": ...}`). -/
structure WinnerEntry where
  rank : Rank
  prize : ℤ
  winner : Participant
  deriving DecidableEq

/-- An entry of `final_winners_for_db` as written by `set_pot_winners`. -/
structure WinnerRec where
  rank : Rank
  telegram_id : ℤ
  ticket_code : String
  prize : ℤ
  upi_id : Option String
  deriving DecidableEq

/-- Payout status; the source stores the strings "PENDING", "PAID",
"FAILED". -/
inductive PayoutStatus
  | PENDING
  | PAID
  | FAILED
  deriving DecidableEq

/-- A `payouts` document as inserted by `add_payout_history`
(db_access.py); the wall-clock `timestamp` field is not modelled. -/
structure PayoutRecord where
  user_telegram_id : ℤ
  amount : ℤ
  status : PayoutStatus
  upi_id : Option String
  deriving DecidableEq

/-- A `pots` document.  The fields `date`, `start_time` and `_id` play
no role in the claims; `end_time` is an abstract instant on a single
integer timeline (the source's timezone conversions are
order-preserving bijections). -/
structure Pot where
  status : Status
  participants : List Participant
  max_users : ℕ
  ticket_price : ℤ
  total_tickets : ℕ
  winners : List WinnerRec
  end_time : ℤ
  deriving DecidableEq

/-- The sentinel the source stores when a winner has no user record:
`winner_upi_id = ... if winner_user else "Not set"`. -/
def notSetUpi : String := "Not set"

/-- `get_user` (db_access.py): `find_one({"telegram_id": id})` on the
unique-indexed `users` collection — the first (only) match. -/
def get_user (users : List User) (telegram_id : ℤ) : Option User :=
  match users with
  | [] => none
  | u :: rest =>
    if u.telegram_id = telegram_id then some u else get_user rest telegram_id

/-- Helper for `find_one_and_update`: rewrite the first user whose
`telegram_id` matches, returning the new list and the updated document
(`return_document=True`), or `none` if no user matched. -/
def update_first (users : List User) (telegram_id : ℤ) (f : User → User) :
    List User × Option User :=
  match users with
  | [] => ([], none)
  | u :: rest =>
    if u.telegram_id = telegram_id then (f u :: rest, some (f u))
    else
      let r := update_first rest telegram_id f
      (u :: r.1, r.2)

/-- The `$inc` document built by `update_user_balance`: each balance
field is included (and hence incremented) only when its delta is
nonzero. -/
def balance_inc (real_amount bonus_amount : ℤ) (u : User) : User :=
  { u with
    real_balance :=
      if real_amount ≠ 0 then u.real_balance + real_amount else u.real_balance,
    bonus_balance :=
      if bonus_amount ≠ 0 then u.bonus_balance + bonus_amount else u.bonus_balance }

/-- `update_user_balance` (db_access.py:45-62): if both deltas are zero
nothing is updated and `None` is returned; otherwise a single atomic
`find_one_and_update` with `$inc` is issued.  There is no guard on the
resulting balances. -/
def update_user_balance (users : List User) (telegram_id : ℤ)
    (real_amount bonus_amount : ℤ) : List User × Option User :=
  if real_amount = 0 ∧ bonus_amount = 0 then (users, none)
  else update_first users telegram_id (balance_inc real_amount bonus_amount)

/-- The filter clause `"participants": {"$not": {"$elemMatch":
{"ticket_code": code}}}`: some participant already holds `code`. -/
def codeTaken (pot : Pot) (code : String) : Bool :=
  pot.participants.any (fun p => p.ticket_code == code)

/-- The filter clause `"participants.telegram_id": {"$ne": user_id}`
negated: some participant already is this user. -/
def userInPot (pot : Pot) (telegram_id : ℤ) : Bool :=
  pot.participants.any (fun p => p.telegram_id == telegram_id)

/-- `purchase_ticket_atomically` (db_access.py:192-210): one conditional
`update_one` whose filter requires the pot to be open, the code to be
unclaimed and the user to be absent; on a match it pushes the
participant and increments `total_tickets`.  MongoDB serialises
single-document updates, so concurrent calls are modelled by running
this function in some sequential order.  Returns
`modified_count > 0` together with the resulting pot. -/
def purchase_ticket_atomically (pot : Pot) (telegram_id : ℤ) (code : String) :
    Bool × Pot :=
  if pot.status = Status.opened ∧ codeTaken pot code = false ∧
      userInPot pot telegram_id = false then
    (true,
      { pot with
        participants := pot.participants ++ [⟨telegram_id, code⟩],
        total_tickets := pot.total_tickets + 1 })
  else
    (false, pot)

/-- A sequence of racing `claim` calls for the same code, serialised by
the storage layer; returns the final pot and each caller's outcome in
order. -/
def purchase_all (pot : Pot) (callers : List ℤ) (code : String) :
    Pot × List Bool :=
  match callers with
  | [] => (pot, [])
  | u :: rest =>
    let r := purchase_ticket_atomically pot u code
    let rr := purchase_all r.2 rest code
    (rr.1, r.1 :: rr.2)

/-- `add_user_to_pot` (db_access.py:215-221): an unconditional
`update_one` that pushes the participant and increments
`total_tickets`, with no filter beyond the pot id. -/
def add_user_to_pot (pot : Pot) (telegram_id : ℤ) (ticket_code : String) :
    Pot :=
  { pot with
    participants := pot.participants ++ [⟨telegram_id, ticket_code⟩],
    total_tickets := pot.total_tickets + 1 }

/-- The pot invariant of the specification (§3): participant count
bounded by `max_users`, every claimed code drawn from the pot's ticket
pool (`pool` is the set of codes `create_pot` inserted into
`db.tickets` for this pot), and no duplicate code or user. -/
def pot_invariant (pool : List String) (pot : Pot) : Prop :=
  pot.participants.length ≤ pot.max_users ∧
  (∀ p ∈ pot.participants, p.ticket_code ∈ pool) ∧
  (pot.participants.map Participant.ticket_code).Nodup ∧
  (pot.participants.map Participant.telegram_id).Nodup

instance (pool : List String) (pot : Pot) : Decidable (pot_invariant pool pot) := by
  unfold pot_invariant
  infer_instance

/-- Rounding of the exact quotient p / q (with q > 0) to the nearest
integer, ties to even — the tie-breaking rule of Python's `round`.
With amounts in hundredths, Python's `round(x, 2)` of a product
`base * (n / 30.0)` is `divRoundHalfEven (base_hundredths * n) 30`. -/
def divRoundHalfEven (p q : ℤ) : ℤ :=
  let f := Int.fdiv p q
  let r := p - q * f
  if 2 * r < q then f
  else if q < 2 * r then f + 1
  else if f % 2 = 0 then f else f + 1

/-- The prize table; the source builds the dict
`{"1st": ..., "2nd": ..., "3rd": ...}`. -/
structure Prizes where
  first : ℤ
  second : ℤ
  third : ℤ
  deriving DecidableEq

/-- `base_prizes = {"1st": 500, "2nd": 200, "3rd": 100}` (pot.py:118),
in hundredths. -/
def base_prizes : Prizes := ⟨50000, 20000, 10000⟩

/-- The prize computation of `process_pot_revelation` (pot.py:122-130):
unscaled base prizes from 30 participants up, otherwise each base
amount scaled by `num_participants / 30.0` and rounded to two
decimals. -/
def compute_prizes (num_participants : ℕ) : Prizes :=
  if 30 ≤ num_participants then base_prizes
  else
    ⟨divRoundHalfEven (base_prizes.first * num_participants) 30,
     divRoundHalfEven (base_prizes.second * num_participants) 30,
     divRoundHalfEven (base_prizes.third * num_participants) 30⟩

/-- The rank-assignment branches of `process_pot_revelation`
(pot.py:134-142): with at least 3 participants the first three of the
shuffled list get 3rd/2nd/1st in pop order; with exactly 2, 2nd/1st;
with exactly 1, only 1st (that branch is unreachable from the full
function, which refunds below 2 participants, but it is part of the
source).  The catch-all `[]` arms stand for the `IndexError` the
source's `pop(0)` would raise; they cannot fire when `shuffled` really
is a permutation of `num_participants` participants. -/
def assign_winner_entries (num_participants : ℕ) (prizes : Prizes)
    (shuffled : List Participant) : List WinnerEntry :=
  if 3 ≤ num_participants then
    match shuffled with
    | a :: b :: c :: _ =>
      [⟨Rank.third, prizes.third, a⟩, ⟨Rank.second, prizes.second, b⟩,
       ⟨Rank.first, prizes.first, c⟩]
    | _ => []
  else if num_participants = 2 then
    match shuffled with
    | a :: b :: _ =>
      [⟨Rank.second, prizes.second, a⟩, ⟨Rank.first, prizes.first, b⟩]
    | _ => []
  else if num_participants = 1 then
    match shuffled with
    | a :: _ => [⟨Rank.first, prizes.first, a⟩]
    | _ => []
  else []

/-- Stable insertion step for the descending sort
`winners_data_for_reveal.sort(key=rank_order_map, reverse=True)`. -/
def insertDescByRank (w : WinnerEntry) : List WinnerEntry → List WinnerEntry
  | [] => [w]
  | x :: xs =>
    if rank_order_map w.rank ≤ rank_order_map x.rank then
      x :: insertDescByRank w xs
    else w :: x :: xs

/-- The descending-by-rank sort of `winners_data_for_reveal`
(pot.py:145). -/
def sortDescByRank : List WinnerEntry → List WinnerEntry
  | [] => []
  | x :: xs => insertDescByRank x (sortDescByRank xs)

/-- Stable insertion step for the ascending sort of
`final_winners_for_db` (pot.py:221). -/
def insertAscByRank (w : WinnerRec) : List WinnerRec → List WinnerRec
  | [] => [w]
  | x :: xs =>
    if rank_order_map x.rank ≤ rank_order_map w.rank then
      x :: insertAscByRank w xs
    else w :: x :: xs

/-- `sorted(final_winners_for_db, key=rank_order_map)` (pot.py:221). -/
def sortAscByRank : List WinnerRec → List WinnerRec
  | [] => []
  | x :: xs => insertAscByRank x (sortAscByRank xs)

/-- The UPI destination recorded for a winner (pot.py:161-164):
the winner's `upi_id` field when the user document exists (possibly
`None`, modelled as `none`), or the literal string "Not set" when it
does not. -/
def payout_upi (users : List User) (telegram_id : ℤ) : Option String :=
  match get_user users telegram_id with
  | some u => u.upi_id
  | none => some notSetUpi

/-- The `add_payout_history` calls of the winner loop (pot.py:216,
db_access.py:109-122): one PENDING record per winner entry, in reveal
order. -/
def make_payouts (users : List User) (entries : List WinnerEntry) :
    List PayoutRecord :=
  entries.map (fun e =>
    ⟨e.winner.telegram_id, e.prize, PayoutStatus.PENDING,
     payout_upi users e.winner.telegram_id⟩)

/-- The `final_winners_for_db` entries built in the winner loop
(pot.py:181). -/
def make_winner_recs (users : List User) (entries : List WinnerEntry) :
    List WinnerRec :=
  entries.map (fun e =>
    ⟨e.rank, e.winner.telegram_id, e.winner.ticket_code, e.prize,
     payout_upi users e.winner.telegram_id⟩)

/-- The refund loop of `process_pot_revelation` (pot.py:91-101): for
each participant in order, look the user up; if found, credit the
ticket price to `real_balance`; if not, only log.  Returns the updated
users and the list of credits issued. -/
def refund_participants (users : List User) (ps : List Participant)
    (ticket_price : ℤ) : List User × List (ℤ × ℤ) :=
  match ps with
  | [] => (users, [])
  | p :: rest =>
    match get_user users p.telegram_id with
    | some _ =>
      let users1 := (update_user_balance users p.telegram_id ticket_price 0).1
      let r := refund_participants users1 rest ticket_price
      (r.1, (p.telegram_id, ticket_price) :: r.2)
    | none => refund_participants users rest ticket_price

/-- Everything `process_pot_revelation` changes or creates: the users
collection, the pot document, the payout records inserted and the
wallet credits issued. -/
structure RevealOutcome where
  users : List User
  pot : Pot
  payouts : List PayoutRecord
  credits : List (ℤ × ℤ)
  deriving DecidableEq

/-- `process_pot_revelation` (pot.py:76-244).  `shuffle` stands for
`random.shuffle`; the fairness contract is that it permutes its input
(stated as a hypothesis where needed).  An already revealed pot is
skipped; below 2 participants every ticket price is refunded and the
pot is revealed with its winners untouched; otherwise the shuffled
participants receive ranks, one PENDING payout record is inserted per
winner (no balance credit), and the pot gets its winners (ascending by
rank) and status "revealed". -/
def process_pot_revelation (shuffle : List Participant → List Participant)
    (users : List User) (pot : Pot) : RevealOutcome :=
  let participants := pot.participants
  let num_participants := participants.length
  let ticket_price := pot.ticket_price
  if pot.status = Status.revealed then
    ⟨users, pot, [], []⟩
  else if num_participants < 2 then
    let r := refund_participants users participants ticket_price
    ⟨r.1, { pot with status := Status.revealed }, [], r.2⟩
  else
    let shuffled := shuffle participants
    let prizes := compute_prizes num_participants
    let entries := sortDescByRank (assign_winner_entries num_participants prizes shuffled)
    let payouts := make_payouts users entries
    let final_winners := sortAscByRank (make_winner_recs users entries)
    ⟨users, { pot with winners := final_winners, status := Status.revealed },
     payouts, []⟩

/-- `close_pot_and_distribute_prizes` (pot.py:344-411): a missing pot
is a no-op; a pot whose status is not "open" is a no-op; otherwise the
status is set to "closed" (both the below-2-participants branch and the
regular branch write the same status; they differ only in the messages
sent).  The boolean records whether a status write happened. -/
def close_pot_and_distribute_prizes (pot : Option Pot) : Option Pot × Bool :=
  match pot with
  | none => (none, false)
  | some p =>
    if p.status ≠ Status.opened then (some p, false)
    else (some { p with status := Status.closed }, true)

/-- A `pots` collection document paired with its `date` key.  The key
is the IST calendar day as an ISO date string (unique-indexed); ISO
date strings compare chronologically, so the key is modelled as an
integer day number, and only equality on it is ever used. -/
structure DatedPot where
  date : ℤ
  pot : Pot
  deriving DecidableEq

/-- `get_current_pot` (pot.py:69-74): `find_one` on the pots collection
for today's IST date with status in {"open", "closed", "revealed"}.
The status clause is vacuous in the model because `Status` has exactly
those three values; the date clause restricts the lookup to today's
pot.  First match, mirroring `find_one` under the unique index on
`date`. -/
def get_current_pot (pots : List DatedPot) (today : ℤ) : Option Pot :=
  match pots with
  | [] => none
  | dp :: rest =>
    if dp.date = today then some dp.pot else get_current_pot rest today

/-- `close_overdue_pots_on_startup` (main.py:72-87): look up today's
pot via `get_current_pot` (main.py:74); if it exists, is open, and its
end time is strictly in the past, close it; otherwise do nothing.  A
pot dated before today — e.g. one left open by an outage spanning
midnight — is never examined by the scan. -/
def close_overdue_pots_on_startup (now today : ℤ) (pots : List DatedPot) :
    Option Pot × Bool :=
  match get_current_pot pots today with
  | none => (none, false)
  | some p =>
    if p.status = Status.opened ∧ p.end_time < now then
      close_pot_and_distribute_prizes (some p)
    else (some p, false)

/-- The two startup steps of `on_startup` (main.py:90-120) that touch
the pot lifecycle. -/
inductive StartupAction
  | startSchedulerTask
  | runRecoveryScan
  deriving DecidableEq, BEq

/-- The order in which `on_startup` performs them (main.py:117-120):
`asyncio.create_task(schedule_daily_pot_open(...))` first, the awaited
`close_overdue_pots_on_startup(...)` second.  Creating the task makes
the scheduler runnable, so its polling loop can start as soon as the
recovery scan first awaits; nothing orders the scan before the
scheduler's first poll. -/
def on_startup_actions : List StartupAction :=
  [StartupAction.startSchedulerTask, StartupAction.runRecoveryScan]

/-! Concrete data used by witnesses and counterexamples. -/

def code111 : String := "111111"

def code222 : String := "222222"

def code999 : String := "999999"

def someUpiStr : String := "user@upi"

/-- An empty open pot (₹50.00 tickets). -/
def potA : Pot :=
  { status := Status.opened, participants := [], max_users := 30,
    ticket_price := 5000, total_tickets := 0, winners := [], end_time := 100 }

/-- A full (max_users = 1) open pot whose single pool code is taken. -/
def potB : Pot :=
  { status := Status.opened, participants := [⟨1, code111⟩], max_users := 1,
    ticket_price := 5000, total_tickets := 1, winners := [], end_time := 100 }

/-- The ticket pool `create_pot` generated for `potB`. -/
def poolB : List String := [code111]

/-- A closed pot with a single participant. -/
def potOne : Pot :=
  { status := Status.closed, participants := [⟨1, code111⟩], max_users := 30,
    ticket_price := 5000, total_tickets := 1, winners := [], end_time := 100 }

def usersOne : List User := [⟨1, 0, 0, none⟩]

/-- A closed pot with two participants. -/
def potTwo : Pot :=
  { status := Status.closed, participants := [⟨1, code111⟩, ⟨2, code222⟩],
    max_users := 30, ticket_price := 5000, total_tickets := 2, winners := [],
    end_time := 100 }

def usersTwo : List User := [⟨1, 0, 0, none⟩, ⟨2, 0, 0, some someUpiStr⟩]

/-- A closed pot with 15 participants. -/
def pot15 : Pot :=
  { status := Status.closed,
    participants := (List.range 15).map (fun i => ⟨(i : ℤ), code111⟩),
    max_users := 30, ticket_price := 5000, total_tickets := 15, winners := [],
    end_time := 100 }

/-- A closed pot with one participant who has no user record. -/
def potM : Pot :=
  { status := Status.closed, participants := [⟨9, code111⟩], max_users := 30,
    ticket_price := 5000, total_tickets := 1, winners := [], end_time := 100 }

/-- An overdue open pot (end_time 100, "now" being 200). -/
def potD : Pot :=
  { status := Status.opened, participants := [], max_users := 30,
    ticket_price := 5000, total_tickets := 0, winners := [], end_time := 100 }

def usersC9 : List User := [⟨1, 0, 0, none⟩]

/-! Helper lemmas. -/

theorem get_current_pot_none (pots : List DatedPot) (today : ℤ)
    (h : ∀ dp ∈ pots, dp.date ≠ today) :
    get_current_pot pots today = none := by
  induction pots with
  | nil => rfl
  | cons dp rest ih =>
    rw [get_current_pot, if_neg (h dp (by simp))]
    exact ih (fun x hx => h x (by simp [hx]))

theorem codeTaken_eq_false_iff (pot : Pot) (code : String) :
    codeTaken pot code = false ↔ ∀ p ∈ pot.participants, p.ticket_code ≠ code := by
  simp [codeTaken, List.any_eq_false]

theorem userInPot_eq_false_iff (pot : Pot) (telegram_id : ℤ) :
    userInPot pot telegram_id = false ↔
      ∀ p ∈ pot.participants, p.telegram_id ≠ telegram_id := by
  simp [userInPot, List.any_eq_false]

theorem purchase_all_of_codeTaken (pot : Pot) (code : String) (callers : List ℤ)
    (h : codeTaken pot code = true) :
    purchase_all pot callers code = (pot, callers.map fun _ => false) := by
  induction callers with
  | nil => rfl
  | cons u rest ih =>
    have hp : purchase_ticket_atomically pot u code = (false, pot) := by
      unfold purchase_ticket_atomically
      rw [if_neg]
      intro hc
      rw [h] at hc
      exact absurd hc.2.1 (by simp)
    simp [purchase_all, hp, ih]

theorem update_first_spec (f : User → User)
    (hf : ∀ v, (f v).telegram_id = v.telegram_id) :
    ∀ (users : List User) (telegram_id : ℤ) (u : User),
      get_user users telegram_id = some u →
      (update_first users telegram_id f).2 = some (f u) ∧
      get_user (update_first users telegram_id f).1 telegram_id = some (f u) := by
  intro users
  induction users with
  | nil =>
    intro tid u h
    simp [get_user] at h
  | cons v rest ih =>
    intro tid u h
    by_cases hv : v.telegram_id = tid
    · have hu : v = u := by
        rw [get_user, if_pos hv] at h
        exact Option.some.inj h
      subst hu
      constructor
      · simp [update_first, hv]
      · simp only [update_first, if_pos hv]
        rw [get_user, if_pos (show (f v).telegram_id = tid from (hf v).trans hv)]
    · rw [get_user, if_neg hv] at h
      obtain ⟨h1, h2⟩ := ih tid u h
      constructor
      · simpa [update_first, hv] using h1
      · simp only [update_first, if_neg hv]
        rw [get_user, if_neg hv]
        exact h2

theorem process_pot_revelation_refund (shuffle : List Participant → List Participant)
    (users : List User) (pot : Pot)
    (hst : pot.status = Status.closed) (hn : pot.participants.length < 2) :
    process_pot_revelation shuffle users pot =
      ⟨(refund_participants users pot.participants pot.ticket_price).1,
       { pot with status := Status.revealed }, [],
       (refund_participants users pot.participants pot.ticket_price).2⟩ := by
  unfold process_pot_revelation
  rw [hst]
  simp [hn]

theorem process_pot_revelation_winners (shuffle : List Participant → List Participant)
    (users : List User) (pot : Pot)
    (hst : pot.status = Status.closed) (hn : 2 ≤ pot.participants.length) :
    process_pot_revelation shuffle users pot =
      ⟨users,
       { pot with
         winners := sortAscByRank (make_winner_recs users
           (sortDescByRank (assign_winner_entries pot.participants.length
             (compute_prizes pot.participants.length) (shuffle pot.participants)))),
         status := Status.revealed },
       make_payouts users
         (sortDescByRank (assign_winner_entries pot.participants.length
           (compute_prizes pot.participants.length) (shuffle pot.participants))),
       []⟩ := by
  unfold process_pot_revelation
  rw [hst]
  have h2 : ¬ (pot.participants.length < 2) := by omega
  simp [h2]

theorem exists_three_cons (l : List Participant) (h : 3 ≤ l.length) :
    ∃ a b c t, l = a :: b :: c :: t := by
  cases l with
  | nil => simp only [List.length_nil] at h; omega
  | cons a l1 =>
    cases l1 with
    | nil => simp only [List.length_cons, List.length_nil] at h; omega
    | cons b l2 =>
      cases l2 with
      | nil => simp only [List.length_cons, List.length_nil] at h; omega
      | cons c t => exact ⟨a, b, c, t, rfl⟩

theorem exists_two_cons (l : List Participant) (h : 2 ≤ l.length) :
    ∃ a b t, l = a :: b :: t := by
  cases l with
  | nil => simp only [List.length_nil] at h; omega
  | cons a l1 =>
    cases l1 with
    | nil => simp only [List.length_cons, List.length_nil] at h; omega
    | cons b t => exact ⟨a, b, t, rfl⟩

theorem entries_three (n : ℕ) (h3 : 3 ≤ n) (pr : Prizes) (a b c : Participant)
    (t : List Participant) :
    sortDescByRank (assign_winner_entries n pr (a :: b :: c :: t)) =
      [⟨Rank.third, pr.third, a⟩, ⟨Rank.second, pr.second, b⟩,
       ⟨Rank.first, pr.first, c⟩] := by
  rw [assign_winner_entries.eq_def, if_pos h3]
  show sortDescByRank
      [⟨Rank.third, pr.third, a⟩, ⟨Rank.second, pr.second, b⟩,
       ⟨Rank.first, pr.first, c⟩] = _
  simp [sortDescByRank, insertDescByRank, rank_order_map]

theorem entries_two (pr : Prizes) (a b : Participant) (t : List Participant) :
    sortDescByRank (assign_winner_entries 2 pr (a :: b :: t)) =
      [⟨Rank.second, pr.second, a⟩, ⟨Rank.first, pr.first, b⟩] := by
  rw [assign_winner_entries.eq_def, if_neg (by omega), if_pos rfl]
  show sortDescByRank
      [⟨Rank.second, pr.second, a⟩, ⟨Rank.first, pr.first, b⟩] = _
  simp [sortDescByRank, insertDescByRank, rank_order_map]

/-! Claim C1. -/

/-- C1: the ticket-claim operation succeeds exactly when the pot is
open, the code does not yet appear in `participants` and the calling
user holds no ticket in the pot; and when any nonempty collection of
callers race for the same code on an open pot none of them holding a
ticket yet (the storage layer serialises the conditional updates),
exactly one call succeeds and the code appears in `participants`
exactly once afterwards. -/
theorem purchase_ticket_atomically_spec :
    (∀ (pot : Pot) (telegram_id : ℤ) (code : String),
       (purchase_ticket_atomically pot telegram_id code).1 = true ↔
         (pot.status = Status.opened ∧
          (∀ p ∈ pot.participants, p.ticket_code ≠ code) ∧
          (∀ p ∈ pot.participants, p.telegram_id ≠ telegram_id))) ∧
    (∀ (pot : Pot) (code : String) (callers : List ℤ),
       pot.status = Status.opened →
       (∀ p ∈ pot.participants, p.ticket_code ≠ code) →
       (∀ u ∈ callers, ∀ p ∈ pot.participants, p.telegram_id ≠ u) →
       callers ≠ [] →
       ((purchase_all pot callers code).2.count true = 1 ∧
        ((purchase_all pot callers code).1.participants.map
            Participant.ticket_code).count code = 1)) := by
  constructor
  · intro pot tid code
    rw [show (∀ p ∈ pot.participants, p.ticket_code ≠ code) ↔
          codeTaken pot code = false from (codeTaken_eq_false_iff pot code).symm,
        show (∀ p ∈ pot.participants, p.telegram_id ≠ tid) ↔
          userInPot pot tid = false from (userInPot_eq_false_iff pot tid).symm]
    unfold purchase_ticket_atomically
    split
    · next h => simpa using h
    · next h => simpa using h
  · intro pot code callers hopen hcode hfresh hne
    match callers, hne with
    | u :: rest, _ =>
      have hc : codeTaken pot code = false := (codeTaken_eq_false_iff pot code).mpr hcode
      have hu : userInPot pot u = false :=
        (userInPot_eq_false_iff pot u).mpr (hfresh u (by simp))
      have hp1 : (purchase_ticket_atomically pot u code).1 = true := by
        unfold purchase_ticket_atomically
        rw [if_pos ⟨hopen, hc, hu⟩]
      have hp2 : (purchase_ticket_atomically pot u code).2.participants =
          pot.participants ++ [⟨u, code⟩] := by
        unfold purchase_ticket_atomically
        rw [if_pos ⟨hopen, hc, hu⟩]
      have htaken : codeTaken (purchase_ticket_atomically pot u code).2 code = true := by
        simp [codeTaken, hp2]
      have hrest := purchase_all_of_codeTaken _ code rest htaken
      have hcount0 : (pot.participants.map Participant.ticket_code).count code = 0 := by
        rw [List.count_eq_zero]
        simp only [List.mem_map, not_exists]
        rintro p ⟨hp, hpc⟩
        exact hcode p hp hpc
      have hall2 : (purchase_all pot (u :: rest) code).2 =
          (purchase_ticket_atomically pot u code).1 ::
            (purchase_all (purchase_ticket_atomically pot u code).2 rest code).2 := by
        simp [purchase_all]
      have hall1 : (purchase_all pot (u :: rest) code).1 =
          (purchase_all (purchase_ticket_atomically pot u code).2 rest code).1 := by
        simp [purchase_all]
      constructor
      · rw [hall2, hrest, hp1]
        simp only [List.count_cons_self]
        rw [List.count_eq_zero.mpr (by simp)]
      · rw [hall1, hrest]
        simp only []
        rw [hp2, List.map_append, List.count_append, hcount0]
        simp

/-- Witness for C1 at a concrete empty open pot and two racing buyers. -/
theorem purchase_ticket_atomically_spec_witness :
    ((purchase_ticket_atomically potA 7 code111).1 = true ↔
      (potA.status = Status.opened ∧
       (∀ p ∈ potA.participants, p.ticket_code ≠ code111) ∧
       (∀ p ∈ potA.participants, p.telegram_id ≠ 7))) ∧
    potA.status = Status.opened ∧
    (purchase_all potA [7, 8] code111).2.count true = 1 ∧
    ((purchase_all potA [7, 8] code111).1.participants.map
        Participant.ticket_code).count code111 = 1 :=
  ⟨purchase_ticket_atomically_spec.1 potA 7 code111, rfl,
   (purchase_ticket_atomically_spec.2 potA code111 [7, 8] rfl (by decide) (by decide)
     (by decide)).1,
   (purchase_ticket_atomically_spec.2 potA code111 [7, 8] rfl (by decide) (by decide)
     (by decide)).2⟩

/-! Claim C2. -/

/-- C2 counterexample: the pot invariant is not preserved by the
participant-mutating operations.  `potB` (capacity 1, ticket pool
{"111111"}, one participant) satisfies the invariant, yet a claim by a
new user for the code "999999" — which is not in the pot's ticket pool —
succeeds, leaving 2 participants in a 1-user pot with a code from
outside the pool. -/
theorem pot_invariant_not_preserved_by_purchase :
    pot_invariant poolB potB ∧
    (purchase_ticket_atomically potB 2 code999).1 = true ∧
    ¬ pot_invariant poolB (purchase_ticket_atomically potB 2 code999).2 := by
  decide

/-- C2 amended: a successful `purchase_ticket_atomically` preserves the
uniqueness components of the pot invariant — no duplicate ticket code
and no duplicate user in `participants` — but neither the capacity
bound nor pool membership is enforced by the operation (and
`add_user_to_pot` enforces nothing at all, appending unconditionally). -/
theorem purchase_preserves_participant_uniqueness :
    ∀ (pot : Pot) (telegram_id : ℤ) (code : String),
      (pot.participants.map Participant.ticket_code).Nodup →
      (pot.participants.map Participant.telegram_id).Nodup →
      (((purchase_ticket_atomically pot telegram_id code).2.participants.map
          Participant.ticket_code).Nodup ∧
       ((purchase_ticket_atomically pot telegram_id code).2.participants.map
          Participant.telegram_id).Nodup) := by
  intro pot tid code hcodes hids
  unfold purchase_ticket_atomically
  split
  · next h =>
    obtain ⟨-, hc, hu⟩ := h
    have hc2 := (codeTaken_eq_false_iff pot code).mp hc
    have hu2 := (userInPot_eq_false_iff pot tid).mp hu
    constructor
    · simp only [List.map_append, List.map_cons, List.map_nil]
      rw [List.nodup_append]
      refine ⟨hcodes, List.nodup_singleton _, ?_⟩
      intro a ha hb
      simp only [List.mem_singleton] at hb
      subst hb
      simp only [List.mem_map] at ha
      obtain ⟨p, hp, hpc⟩ := ha
      exact hc2 p hp hpc
    · simp only [List.map_append, List.map_cons, List.map_nil]
      rw [List.nodup_append]
      refine ⟨hids, List.nodup_singleton _, ?_⟩
      intro a ha hb
      simp only [List.mem_singleton] at hb
      subst hb
      simp only [List.mem_map] at ha
      obtain ⟨p, hp, hpc⟩ := ha
      exact hu2 p hp hpc
  · next h => exact ⟨hcodes, hids⟩

/-- Witness for the amended C2 at a concrete pot. -/
theorem purchase_preserves_participant_uniqueness_witness :
    (potB.participants.map Participant.ticket_code).Nodup ∧
    (((purchase_ticket_atomically potB 2 code999).2.participants.map
        Participant.ticket_code).Nodup ∧
     ((purchase_ticket_atomically potB 2 code999).2.participants.map
        Participant.telegram_id).Nodup) :=
  ⟨by decide, purchase_preserves_participant_uniqueness potB 2 code999
    (by decide) (by decide)⟩

/-! Claim C9. -/

/-- C9 counterexample: `update_user_balance` does not refuse a debit
that drives a balance below zero.  Debiting ₹50.00 from a user with
zero balances is applied, returns the updated document, and leaves
`real_balance` at −₹50.00; no `InsufficientFunds` outcome exists. -/
theorem update_user_balance_allows_negative :
    (update_user_balance usersC9 1 (-5000) 0).1 = [⟨1, -5000, 0, none⟩] ∧
    (update_user_balance usersC9 1 (-5000) 0).2 = some ⟨1, -5000, 0, none⟩ ∧
    (⟨1, -5000, 0, none⟩ : User).real_balance < 0 := by
  decide

/-- C9 amended: `update_user_balance` applies any nonzero pair of
deltas unconditionally as a single atomic increment — each balance
receives its delta, including debits that drive `real_balance` or
`bonus_balance` below zero (the program itself issues such combined
real+bonus debits, user_commands.py:531); pre-validating funds is the
caller's responsibility, as the specification's main sentence states. -/
theorem update_user_balance_applies_any_delta :
    ∀ (users : List User) (telegram_id : ℤ) (real_amount bonus_amount : ℤ)
      (u : User),
      get_user users telegram_id = some u →
      ¬ (real_amount = 0 ∧ bonus_amount = 0) →
      ∃ v, (update_user_balance users telegram_id real_amount bonus_amount).2 =
          some v ∧
        v.real_balance = u.real_balance + real_amount ∧
        v.bonus_balance = u.bonus_balance + bonus_amount ∧
        get_user (update_user_balance users telegram_id real_amount
          bonus_amount).1 telegram_id = some v := by
  intro users tid r b u hu hrb
  have hf : ∀ v : User, (balance_inc r b v).telegram_id = v.telegram_id := by
    intro v; rfl
  obtain ⟨h1, h2⟩ := update_first_spec (balance_inc r b) hf users tid u hu
  refine ⟨balance_inc r b u, ?_, ?_, ?_, ?_⟩
  · rw [update_user_balance, if_neg hrb]
    exact h1
  · by_cases hr : r = 0
    · simp [balance_inc, hr]
    · simp [balance_inc, hr]
  · by_cases hb : b = 0
    · simp [balance_inc, hb]
    · simp [balance_inc, hb]
  · rw [update_user_balance, if_neg hrb]
    exact h2

/-- Witness for the amended C9: a combined real+bonus debit against
zero balances (the shape of the purchase debit at
user_commands.py:531) is applied in full, driving both balances
negative. -/
theorem update_user_balance_applies_any_delta_witness :
    get_user usersC9 1 = some ⟨1, 0, 0, none⟩ ∧
    ∃ v, (update_user_balance usersC9 1 (-3000) (-2000)).2 = some v ∧
      v.real_balance = (⟨1, 0, 0, none⟩ : User).real_balance + (-3000) ∧
      v.bonus_balance = (⟨1, 0, 0, none⟩ : User).bonus_balance + (-2000) ∧
      get_user (update_user_balance usersC9 1 (-3000) (-2000)).1 1 = some v :=
  ⟨by decide, update_user_balance_applies_any_delta usersC9 1 (-3000) (-2000)
    ⟨1, 0, 0, none⟩ (by decide) (by decide)⟩

/-! Claim C5. -/

/-- C5: `close` is idempotent — on a pot whose status is not "open"
(already closed or revealed) it returns the same state and performs no
status write, so a second `close` after any `close` is a no-op; and
`reveal` is idempotent — on an already revealed pot it changes
nothing (no winner recomputation: pot returned unchanged, no payout
records, no balance credits), so a second `reveal` after any `reveal`
is a no-op as well. -/
theorem close_and_reveal_idempotent :
    (∀ pot : Pot, pot.status ≠ Status.opened →
       close_pot_and_distribute_prizes (some pot) = (some pot, false)) ∧
    (∀ pot : Pot,
       close_pot_and_distribute_prizes
           (close_pot_and_distribute_prizes (some pot)).1 =
         ((close_pot_and_distribute_prizes (some pot)).1, false)) ∧
    (∀ (shuffle : List Participant → List Participant) (users : List User)
       (pot : Pot), pot.status = Status.revealed →
       process_pot_revelation shuffle users pot = ⟨users, pot, [], []⟩) ∧
    (∀ (shuffle : List Participant → List Participant) (users : List User)
       (pot : Pot),
       process_pot_revelation shuffle users
           (process_pot_revelation shuffle users pot).pot =
         ⟨users, (process_pot_revelation shuffle users pot).pot, [], []⟩) := by
  have hrev : ∀ (shuffle : List Participant → List Participant)
      (users : List User) (pot : Pot), pot.status = Status.revealed →
      process_pot_revelation shuffle users pot = ⟨users, pot, [], []⟩ := by
    intro shuffle users pot h
    simp [process_pot_revelation, h]
  refine ⟨?_, ?_, hrev, ?_⟩
  · intro pot h
    simp [close_pot_and_distribute_prizes, h]
  · intro pot
    by_cases h : pot.status = Status.opened
    · simp [close_pot_and_distribute_prizes, h]
    · simp [close_pot_and_distribute_prizes, h]
  · intro shuffle users pot
    refine hrev shuffle users _ ?_
    unfold process_pot_revelation
    by_cases h : pot.status = Status.revealed
    · simp [h]
    · by_cases h2 : pot.participants.length < 2
      · simp [h, h2]
      · simp [h, h2]

/-- Witness for C5: closing an already closed pot is a no-op, and so is
revealing an already revealed pot and re-revealing after a reveal. -/
theorem close_and_reveal_idempotent_witness :
    potOne.status ≠ Status.opened ∧
    close_pot_and_distribute_prizes (some potOne) = (some potOne, false) ∧
    process_pot_revelation id usersOne { potOne with status := Status.revealed } =
      ⟨usersOne, { potOne with status := Status.revealed }, [], []⟩ ∧
    process_pot_revelation id usersOne
        (process_pot_revelation id usersOne potOne).pot =
      ⟨usersOne, (process_pot_revelation id usersOne potOne).pot, [], []⟩ :=
  ⟨by decide, close_and_reveal_idempotent.1 potOne (by decide),
   close_and_reveal_idempotent.2.2.1 id usersOne
     { potOne with status := Status.revealed } rfl,
   close_and_reveal_idempotent.2.2.2 id usersOne potOne⟩

/-! Claim C6. -/

/-- C6 counterexample: two independent failures of the claim.  First,
the claim places the recovery scan before the scheduler resumes
polling, but `on_startup` (main.py:117-120) creates the scheduler task
first and only then awaits `close_overdue_pots_on_startup`, so in the
startup sequence the recovery scan does not precede the scheduler
start.  Second, the claim has the scan find *any* pot in OPEN state
whose end_time has passed, but the scan only queries today's date
(main.py:74, pot.py:69-74): with today = 5, a pot dated 4 that is OPEN
with its end_time long past is not examined and not closed. -/
theorem recovery_scan_not_before_scheduler :
    ¬ (List.indexOf StartupAction.runRecoveryScan on_startup_actions <
        List.indexOf StartupAction.startSchedulerTask on_startup_actions) ∧
    potD.status = Status.opened ∧ potD.end_time < 200 ∧
    close_overdue_pots_on_startup 200 5 [⟨4, potD⟩] = (none, false) := by
  decide

/-- C6 amended: the one-time recovery scan at startup examines only
today's pot (`get_current_pot` filters on date == today) and closes it
when it is OPEN with its end_time already passed; an OPEN overdue pot
dated before today — the outage-spanning-midnight case — is never
examined, and `on_startup` starts the scheduler task before awaiting
the scan, so the scan is not ordered before the scheduler's polling
(the sequence is scheduler start, then scan). -/
theorem recovery_scan_closes_overdue_pot :
    (∀ (now today : ℤ) (pots : List DatedPot) (pot : Pot),
       get_current_pot pots today = some pot →
       pot.status = Status.opened → pot.end_time < now →
       close_overdue_pots_on_startup now today pots =
         (some { pot with status := Status.closed }, true)) ∧
    (∀ (now today : ℤ) (pots : List DatedPot),
       (∀ dp ∈ pots, dp.date ≠ today) →
       close_overdue_pots_on_startup now today pots = (none, false)) ∧
    on_startup_actions =
      [StartupAction.startSchedulerTask, StartupAction.runRecoveryScan] := by
  refine ⟨?_, ?_, rfl⟩
  · intro now today pots pot hget h1 h2
    unfold close_overdue_pots_on_startup
    rw [hget]
    simp [h1, h2, close_pot_and_distribute_prizes]
  · intro now today pots hall
    unfold close_overdue_pots_on_startup
    rw [get_current_pot_none pots today hall]

/-- Witness for the amended C6: the scan closes today's overdue open
pot, and does not touch the same pot when it is dated yesterday. -/
theorem recovery_scan_closes_overdue_pot_witness :
    get_current_pot [⟨5, potD⟩] 5 = some potD ∧
    potD.status = Status.opened ∧ potD.end_time < 200 ∧
    close_overdue_pots_on_startup 200 5 [⟨5, potD⟩] =
      (some { potD with status := Status.closed }, true) ∧
    close_overdue_pots_on_startup 200 5 [⟨4, potD⟩] = (none, false) :=
  ⟨by decide, rfl, by decide,
   recovery_scan_closes_overdue_pot.1 200 5 [⟨5, potD⟩] potD (by decide) rfl
     (by decide),
   recovery_scan_closes_overdue_pot.2.1 200 5 [⟨4, potD⟩] (by decide)⟩

/-! Claim C3. -/

/-- C3: revealing a closed pot with fewer than 2 participants refunds
every participant's ticket price to their `real_balance`, writes no
winners and no payout records, sets the pot to revealed, and the
credits issued sum to `participants.count × ticket_price` — all under
the precondition (made explicit by C10) that every participant has a
user record. -/
theorem refund_path_spec :
    ∀ (shuffle : List Participant → List Participant) (users : List User)
      (pot : Pot),
      pot.status = Status.closed →
      pot.participants.length < 2 →
      (∀ p ∈ pot.participants, (get_user users p.telegram_id).isSome) →
      ((process_pot_revelation shuffle users pot).pot.status = Status.revealed ∧
       (process_pot_revelation shuffle users pot).pot.winners = pot.winners ∧
       (process_pot_revelation shuffle users pot).payouts = [] ∧
       (process_pot_revelation shuffle users pot).credits =
         pot.participants.map (fun p => (p.telegram_id, pot.ticket_price)) ∧
       ((process_pot_revelation shuffle users pot).credits.map Prod.snd).sum =
         (pot.participants.length : ℤ) * pot.ticket_price ∧
       (∀ p ∈ pot.participants, ∃ u, get_user users p.telegram_id = some u ∧
          get_user (process_pot_revelation shuffle users pot).users p.telegram_id =
            some { u with real_balance := u.real_balance + pot.ticket_price })) := by
  intro shuffle users pot hst hn hall
  rw [process_pot_revelation_refund shuffle users pot hst hn]
  cases hps : pot.participants with
  | nil =>
    simp [refund_participants]
  | cons p rest =>
    cases rest with
    | cons q rest2 =>
      rw [hps] at hn
      simp only [List.length_cons] at hn
      omega
    | nil =>
      rw [hps] at hall
      obtain ⟨u, hu⟩ := Option.isSome_iff_exists.mp (hall p (by simp))
      refine ⟨by simp, by simp, by simp, ?_, ?_, ?_⟩
      · simp [refund_participants, hu]
      · simp [refund_participants, hu]
      · intro q hq
        have hqp : q = p := by simpa using hq
        subst hqp
        refine ⟨u, hu, ?_⟩
        simp only [refund_participants, hu]
        by_cases hprice : pot.ticket_price = 0
        · simpa [update_user_balance, hprice] using hu
        · have hneg : ¬ (pot.ticket_price = 0 ∧ (0 : ℤ) = 0) := by
            simp [hprice]
          have hf : ∀ v : User,
              (balance_inc pot.ticket_price 0 v).telegram_id = v.telegram_id := by
            intro v; rfl
          rw [update_user_balance, if_neg hneg,
            (update_first_spec (balance_inc pot.ticket_price 0) hf users
              q.telegram_id u hu).2]
          simp [balance_inc, hprice]

/-- Witness for C3: a closed one-participant pot is refunded in full. -/
theorem refund_path_spec_witness :
    potOne.participants.length < 2 ∧
    (process_pot_revelation id usersOne potOne).pot.status = Status.revealed ∧
    (process_pot_revelation id usersOne potOne).credits =
      potOne.participants.map (fun p => (p.telegram_id, potOne.ticket_price)) ∧
    ((process_pot_revelation id usersOne potOne).credits.map Prod.snd).sum =
      (potOne.participants.length : ℤ) * potOne.ticket_price :=
  have h := refund_path_spec id usersOne potOne rfl (by decide) (by decide)
  ⟨by decide, h.1, h.2.2.2.1, h.2.2.2.2.1⟩

/-! Claim C10. -/

/-- C10: in the low-participation refund path a participant without a
user record is skipped — no credit is issued for them and the users
collection is untouched on their account — while the pot still becomes
revealed; the credits issued are exactly one ticket price per
participant whose record exists, so refund conservation holds only
under the precondition that every participant has a user record. -/
theorem refund_missing_user_spec :
    ∀ (shuffle : List Participant → List Participant) (users : List User)
      (pot : Pot),
      pot.status = Status.closed →
      pot.participants.length < 2 →
      ((process_pot_revelation shuffle users pot).pot.status = Status.revealed ∧
       (process_pot_revelation shuffle users pot).credits =
         (pot.participants.filter
            (fun p => (get_user users p.telegram_id).isSome)).map
           (fun p => (p.telegram_id, pot.ticket_price)) ∧
       ((process_pot_revelation shuffle users pot).credits.map Prod.snd).sum =
         ((pot.participants.filter
             (fun p => (get_user users p.telegram_id).isSome)).length : ℤ) *
           pot.ticket_price ∧
       (∀ p ∈ pot.participants, get_user users p.telegram_id = none →
          (process_pot_revelation shuffle users pot).users = users ∧
          ∀ c ∈ (process_pot_revelation shuffle users pot).credits,
            c.1 ≠ p.telegram_id)) := by
  intro shuffle users pot hst hn
  rw [process_pot_revelation_refund shuffle users pot hst hn]
  cases hps : pot.participants with
  | nil =>
    simp [refund_participants]
  | cons p rest =>
    cases rest with
    | cons q rest2 =>
      rw [hps] at hn
      simp only [List.length_cons] at hn
      omega
    | nil =>
      cases hget : get_user users p.telegram_id with
      | some u =>
        refine ⟨by simp, ?_, ?_, ?_⟩
        · simp [refund_participants, hget, List.filter_cons]
        · simp [refund_participants, hget, List.filter_cons]
        · intro q hq hnone
          have hqp : q = p := by simpa using hq
          subst hqp
          rw [hget] at hnone
          exact absurd hnone (by simp)
      | none =>
        refine ⟨by simp, ?_, ?_, ?_⟩
        · simp [refund_participants, hget, List.filter_cons]
        · simp [refund_participants, hget, List.filter_cons]
        · intro q hq hnone
          exact ⟨by simp [refund_participants, hget],
            by simp [refund_participants, hget]⟩

/-- Witness for C10: a closed pot whose only participant lacks a user
record is still revealed, with no credit issued. -/
theorem refund_missing_user_spec_witness :
    get_user usersOne 9 = none ∧
    (process_pot_revelation id usersOne potM).pot.status = Status.revealed ∧
    (process_pot_revelation id usersOne potM).users = usersOne ∧
    (process_pot_revelation id usersOne potM).credits = [] :=
  have h := refund_missing_user_spec id usersOne potM rfl (by decide)
  have h4 := h.2.2.2 ⟨9, code111⟩ (by decide) (by decide)
  ⟨by decide, h.1, h4.1, h.2.1.trans (by decide)⟩

/-! Claim C4. -/

/-- C4: the prize amounts at reveal are the unscaled base amounts
₹500/₹200/₹100 from 30 participants up, and for fewer than 30 each base
amount scaled by n/30 and rounded to two decimals; in particular a
15-participant reveal pays ₹250.00, ₹100.00 and ₹50.00 (amounts in
hundredths). -/
theorem prize_scaling_spec :
    (∀ n : ℕ, 30 ≤ n → compute_prizes n = ⟨50000, 20000, 10000⟩) ∧
    (∀ n : ℕ, n < 30 → compute_prizes n =
       ⟨divRoundHalfEven (50000 * (n : ℤ)) 30,
        divRoundHalfEven (20000 * (n : ℤ)) 30,
        divRoundHalfEven (10000 * (n : ℤ)) 30⟩) ∧
    compute_prizes 15 = ⟨25000, 10000, 5000⟩ ∧
    (∀ (shuffle : List Participant → List Participant) (users : List User)
       (pot : Pot),
       pot.status = Status.closed →
       (shuffle pot.participants).length = pot.participants.length →
       pot.participants.length = 15 →
       (process_pot_revelation shuffle users pot).payouts.map
         PayoutRecord.amount = [5000, 10000, 25000]) := by
  refine ⟨?_, ?_, ?_, ?_⟩
  · intro n h
    rw [compute_prizes, if_pos h]
    rfl
  · intro n h
    rw [compute_prizes, if_neg (by omega)]
    rfl
  · decide
  · intro shuffle users pot hst hlen h15
    have hn : 2 ≤ pot.participants.length := by omega
    rw [process_pot_revelation_winners shuffle users pot hst hn]
    obtain ⟨a, b, c, t, hsh⟩ := exists_three_cons (shuffle pot.participants)
      (by omega)
    rw [hsh, h15, entries_three 15 (by omega)]
    have hc : compute_prizes 15 = ⟨25000, 10000, 5000⟩ := by decide
    rw [hc]
    simp [make_payouts]

/-- Witness for C4: full-pot prizes at 30 participants, scaled prizes
at 15, and the concrete 15-participant pot pays 50.00/100.00/250.00 in
reveal order (3rd, 2nd, 1st). -/
theorem prize_scaling_spec_witness :
    (30 : ℕ) ≤ 30 ∧ compute_prizes 30 = ⟨50000, 20000, 10000⟩ ∧
    (15 : ℕ) < 30 ∧ pot15.participants.length = 15 ∧
    (process_pot_revelation id usersTwo pot15).payouts.map
      PayoutRecord.amount = [5000, 10000, 25000] :=
  ⟨by decide, prize_scaling_spec.1 30 (by decide), by decide, by decide,
   prize_scaling_spec.2.2.2 id usersTwo pot15 rfl rfl (by decide)⟩

/-! Claim C7. -/

/-- C7 counterexample: with exactly one participant the claim expects a
1st prize to be awarded, but `process_pot_revelation` takes the
below-2-participants refund path: it creates no payout record, writes
no winners, and refunds the single ticket instead (the count == 1 prize
branch of pot.py:141-142 is unreachable behind the `< 2` guard of
pot.py:89). -/
theorem one_participant_gets_no_prize :
    (process_pot_revelation id usersOne potOne).payouts = [] ∧
    (process_pot_revelation id usersOne potOne).pot.winners = [] ∧
    (process_pot_revelation id usersOne potOne).credits = [(1, 5000)] := by
  decide

/-- C7 amended: at reveal with exactly 2 participants only the 1st and
2nd prizes are awarded (no 3rd); with exactly 1 participant no prize is
awarded at all — the refund path runs instead and the winners list is
left untouched. -/
theorem award_counts_two_one :
    ∀ (shuffle : List Participant → List Participant) (users : List User)
      (pot : Pot),
      pot.status = Status.closed →
      (shuffle pot.participants).length = pot.participants.length →
      ((pot.participants.length = 2 →
         ((process_pot_revelation shuffle users pot).pot.winners.map
            WinnerRec.rank = [Rank.first, Rank.second] ∧
          (process_pot_revelation shuffle users pot).payouts.length = 2)) ∧
       (pot.participants.length = 1 →
         ((process_pot_revelation shuffle users pot).payouts = [] ∧
          (process_pot_revelation shuffle users pot).pot.winners =
            pot.winners))) := by
  intro shuffle users pot hst hlen
  constructor
  · intro h2
    rw [process_pot_revelation_winners shuffle users pot hst (by omega)]
    obtain ⟨a, b, t, hsh⟩ := exists_two_cons (shuffle pot.participants)
      (by omega)
    rw [hsh, h2, entries_two]
    constructor
    · simp [make_winner_recs, sortAscByRank, insertAscByRank, rank_order_map]
    · simp [make_payouts]
  · intro h1
    rw [process_pot_revelation_refund shuffle users pot hst (by omega)]
    exact ⟨rfl, rfl⟩

/-- Witness for the amended C7: a 2-participant pot awards exactly the
1st and 2nd prizes; a 1-participant pot awards none. -/
theorem award_counts_two_one_witness :
    potTwo.participants.length = 2 ∧
    (process_pot_revelation id usersTwo potTwo).pot.winners.map
      WinnerRec.rank = [Rank.first, Rank.second] ∧
    (process_pot_revelation id usersOne potOne).payouts = [] :=
  have h2 := award_counts_two_one id usersTwo potTwo rfl rfl
  have h1 := award_counts_two_one id usersOne potOne rfl rfl
  ⟨by decide, (h2.1 (by decide)).1, (h1.2 (by decide)).1⟩

/-! Claim C8. -/

/-- C8: revealing a closed pot with at least 2 participants (the
shuffle being a permutation, participants' users pairwise distinct)
leaves every user balance untouched and issues no wallet credit;
it creates exactly one PENDING payout record per winner (3 winners
from 3 participants up, 2 at 2), no user appearing twice, each record
carrying the user's currently registered UPI destination — the user
document's `upi_id`, which is `none` when unset — or the literal
"Not set" when the user record is missing. -/
theorem winners_payout_records_spec :
    ∀ (shuffle : List Participant → List Participant) (users : List User)
      (pot : Pot),
      pot.status = Status.closed →
      2 ≤ pot.participants.length →
      (shuffle pot.participants).Perm pot.participants →
      (pot.participants.map Participant.telegram_id).Nodup →
      ((process_pot_revelation shuffle users pot).users = users ∧
       (process_pot_revelation shuffle users pot).credits = [] ∧
       ((process_pot_revelation shuffle users pot).payouts.map
          PayoutRecord.user_telegram_id).Nodup ∧
       (process_pot_revelation shuffle users pot).payouts.length =
         min 3 pot.participants.length ∧
       (∀ r ∈ (process_pot_revelation shuffle users pot).payouts,
          r.status = PayoutStatus.PENDING ∧
          r.upi_id = payout_upi users r.user_telegram_id)) := by
  intro shuffle users pot hst hn hperm hnodup
  rw [process_pot_revelation_winners shuffle users pot hst hn]
  have hlen : (shuffle pot.participants).length = pot.participants.length :=
    hperm.length_eq
  have hnd : ((shuffle pot.participants).map Participant.telegram_id).Nodup :=
    ((hperm.map Participant.telegram_id).nodup_iff).mpr hnodup
  by_cases h3 : 3 ≤ pot.participants.length
  · obtain ⟨a, b, c, t, hsh⟩ := exists_three_cons (shuffle pot.participants)
      (by omega)
    rw [hsh] at hnd
    rw [hsh, entries_three pot.participants.length h3]
    have hnd2 : a.telegram_id ≠ b.telegram_id ∧
        a.telegram_id ≠ c.telegram_id ∧ b.telegram_id ≠ c.telegram_id := by
      simp only [List.map_cons, List.nodup_cons, List.mem_cons] at hnd
      tauto
    refine ⟨rfl, rfl, ?_, ?_, ?_⟩
    · simp [make_payouts, List.nodup_cons, hnd2.1, hnd2.2.1, hnd2.2.2]
    · simp only [make_payouts, List.map_cons, List.map_nil, List.length_cons,
        List.length_nil]
      omega
    · intro r hr
      simp only [make_payouts, List.map_cons, List.map_nil,
        List.mem_cons, List.not_mem_nil, or_false] at hr
      rcases hr with hr | hr | hr <;> subst hr <;> exact ⟨rfl, rfl⟩
  · have h2 : pot.participants.length = 2 := by omega
    obtain ⟨a, b, t, hsh⟩ := exists_two_cons (shuffle pot.participants)
      (by omega)
    rw [hsh] at hnd
    rw [hsh, h2, entries_two]
    have hnd2 : a.telegram_id ≠ b.telegram_id := by
      simp only [List.map_cons, List.nodup_cons, List.mem_cons] at hnd
      tauto
    refine ⟨rfl, rfl, ?_, ?_, ?_⟩
    · simp [make_payouts, List.nodup_cons, hnd2]
    · simp [make_payouts]
    · intro r hr
      simp only [make_payouts, List.map_cons, List.map_nil,
        List.mem_cons, List.not_mem_nil, or_false] at hr
      rcases hr with hr | hr <;> subst hr <;> exact ⟨rfl, rfl⟩

/-- Witness for C8: the concrete 2-participant pot produces two PENDING
records for distinct users and leaves the users collection unchanged. -/
theorem winners_payout_records_spec_witness :
    2 ≤ potTwo.participants.length ∧
    (process_pot_revelation id usersTwo potTwo).users = usersTwo ∧
    (process_pot_revelation id usersTwo potTwo).credits = [] ∧
    ((process_pot_revelation id usersTwo potTwo).payouts.map
       PayoutRecord.user_telegram_id).Nodup ∧
    (process_pot_revelation id usersTwo potTwo).payouts.length =
      min 3 potTwo.participants.length :=
  have h := winners_payout_records_spec id usersTwo potTwo rfl (by decide)
    (List.Perm.refl _) (by decide)
  ⟨by decide, h.1, h.2.1, h.2.2.1, h.2.2.2.1⟩

end LuckyDrop
